import Mathlib

set_option linter.unusedVariables false

/-! Verification of the bindings generator (`src/main.rs`): a shallow
embedding of its type translation, default-value synthesis, bit-field
packing, declaration emission and registry handling, with theorems
settling the specification claims.

Strings are embedded as lists of characters (`Str`); each `write!` or
`writeln!` call of the source becomes one emitted chunk, so the file
content is the concatenation of the chunk list. -/

abbrev Str := List Char

/-- Mirrors Rust `str::strip_prefix`: `some` of the remainder when `p`
is a prefix of `s`, otherwise `none`. -/
def stripPre (s p : Str) : Option Str :=
  if p.isPrefixOf s then some (s.drop p.length) else none

/-- Mirrors Rust `str::strip_suffix` (`ends_with` check, then cut):
`some` of the front when `p` is a suffix of `s`, otherwise `none`. -/
def stripSuf (s p : Str) : Option Str :=
  if p.reverse.isPrefixOf s.reverse then some (s.take (s.length - p.length)) else none

/-- Decimal digit character, code 48 + d. -/
def digitChar (d : Nat) : Char := Char.ofNat (48 + d)

/-- Decimal rendering worker with explicit fuel (fuel `n + 1` always
suffices since the number of digits of `n` is at most `n + 1`). -/
def natCharsGo : Nat → Nat → Str
  | 0, _ => []
  | f + 1, n => if n < 10 then [digitChar n] else natCharsGo f (n / 10) ++ [digitChar (n % 10)]

/-- Decimal rendering of a natural number, as Rust `{}` formatting of `usize`. -/
def natChars (n : Nat) : Str := natCharsGo (n + 1) n

/-- Decimal rendering of an integer, as Rust `{}` formatting of `i64`. -/
def intChars (i : Int) : Str :=
  if i < 0 then '-' :: natChars i.natAbs else natChars i.toNat

/-- Rust `Vec::join(", ")` on already-rendered pieces. -/
def joinComma : List Str → Str
  | [] => []
  | [x] => x
  | x :: rest => x ++ ", ".data ++ joinComma rest

/-- The C type descriptor reaching `translate_type`: the clang
`TypeKind`s the source matches on, with the data the source reads from
each (pointee, element type and extent, argument and result types,
declaration name).  `typedef` carries the canonical type (the source
calls `get_canonical_type`), `elaborated` the unwrapped type.  `other`
stands for every kind the source does not match, carrying its debug
rendering. -/
inductive CType where
  | void | bool | charU | uChar | charS | sChar | uShort | shortK
  | uInt | intK | uLong | longK | uLongLong | longLong | floatK | doubleK
  | pointer (pointee : CType)
  | elaborated (inner : CType)
  | record (name : Option Str)
  | typedef (canonical : CType)
  | enumK (name : Option Str)
  | constantArray (elem : CType) (size : Nat)
  | functionPrototype (args : List CType) (ret : CType)
  | functionNoPrototype (ret : CType)
  | other (tag : Str)
  deriving Repr

theorem CType.sizeOf_pos (t : CType) : 0 < sizeOf t := by cases t <;> simp_arith

theorem CType.list_sizeOf_pos (l : List CType) : 0 < sizeOf l := by cases l <;> simp_arith

/-- How a run can stop early: an `std::io::Error` flowing through `?`
(caught in `main`, one diagnostic plus exit code 1), or a Rust panic
(`unwrap` on `None`, `unreachable!`), which aborts the process. -/
inductive RunError where
  | ioErr (msg : Str)
  | panicMsg (msg : Str)
  deriving Repr, DecidableEq

/-- The panic of `Option::unwrap` on `None`. -/
def unwrapPanic : RunError := .panicMsg ("called Option unwrap on a None value".data)

mutual

/-- `translate_type` of `src/main.rs` lines 15-76: recursive C type to
target type-text mapping.  Panics (`.error`) on anonymous record/enum
names (`get_name().unwrap()`) and on unmatched kinds (`unreachable!`). -/
def translate_type : CType → Except RunError Str
  | .void => .ok ("Unit".data)
  | .bool => .ok ("Bool".data)
  | .charU => .ok ("UInt8".data)
  | .uChar => .ok ("UInt8".data)
  | .charS => .ok ("Int8".data)
  | .sChar => .ok ("Int8".data)
  | .uShort => .ok ("UInt16".data)
  | .shortK => .ok ("Int16".data)
  | .uInt => .ok ("UInt32".data)
  | .intK => .ok ("Int32".data)
  | .uLong => .ok ("UInt64".data)
  | .longK => .ok ("Int64".data)
  | .uLongLong => .ok ("UInt64".data)
  | .longLong => .ok ("Int64".data)
  | .floatK => .ok ("Float32".data)
  | .doubleK => .ok ("Float64".data)
  | .pointer p =>
    match p with
    | .charS => .ok ("CString".data)
    | .functionPrototype args ret => translate_proto args ret
    | q =>
      match translate_type q with
      | .error e => .error e
      | .ok s => .ok ("CPointer<".data ++ s ++ ">".data)
  | .elaborated inner => translate_type inner
  | .record nm =>
    match nm with
    | some n => .ok n
    | none => .error unwrapPanic
  | .typedef canonical => translate_type canonical
  | .enumK nm =>
    match nm with
    | some n => .ok n
    | none => .error unwrapPanic
  | .constantArray elem size =>
    match translate_type elem with
    | .error e => .error e
    | .ok es => .ok ("VArray<".data ++ es ++ ", $".data ++ natChars size ++ ">".data)
  | .functionPrototype args ret => translate_proto args ret
  | .functionNoPrototype ret =>
    match translate_type ret with
    | .error e => .error e
    | .ok r => .ok ("CFunc<() -> ".data ++ r ++ ">".data)
  | .other tag => .error (.panicMsg ("Unsupported type: ".data ++ tag))
termination_by t => sizeOf t
decreasing_by
  all_goals simp_wf
  all_goals omega

/-- The `FunctionPrototype` arm of `translate_type` (also reached for a
pointer to a function prototype): arguments rendered first, then the
result type, as the source evaluates them. -/
def translate_proto (args : List CType) (ret : CType) : Except RunError Str :=
  match translate_args args with
  | .error e => .error e
  | .ok l =>
    match translate_type ret with
    | .error e => .error e
    | .ok r => .ok ("CFunc<(".data ++ joinComma l ++ ") -> ".data ++ r ++ ">".data)
termination_by sizeOf args + sizeOf ret
decreasing_by
  all_goals simp_wf
  · have h1 := CType.sizeOf_pos ret; omega
  · have h1 := CType.list_sizeOf_pos args; omega

/-- Argument-list translation (`args.iter().map(translate_type)`),
stopping at the first panic. -/
def translate_args : List CType → Except RunError (List Str)
  | [] => .ok []
  | a :: rest =>
    match translate_type a with
    | .error e => .error e
    | .ok s =>
      match translate_args rest with
      | .error e => .error e
      | .ok l => .ok (s :: l)
termination_by l => sizeOf l
decreasing_by
  all_goals simp_wf
  all_goals omega
end

theorem isPrefixOf_length_le : ∀ (p s : Str), p.isPrefixOf s = true → p.length ≤ s.length := by
  intro p
  induction p with
  | nil => intro s h; simp
  | cons a as ih =>
    intro s h
    cases s with
    | nil => simp [List.isPrefixOf] at h
    | cons b bs =>
      simp only [List.isPrefixOf, Bool.and_eq_true] at h
      have := ih bs h.2
      simp only [List.length_cons]
      omega

theorem stripPre_some_len {s p r : Str} (h : stripPre s p = some r) :
    r.length + p.length = s.length := by
  unfold stripPre at h
  split at h
  · next hp =>
    have hle := isPrefixOf_length_le p s hp
    cases h
    simp only [List.length_drop]
    omega
  · cases h

theorem stripSuf_some_len {s p r : Str} (h : stripSuf s p = some r) :
    r.length ≤ s.length := by
  unfold stripSuf at h
  split at h
  · cases h
    simp only [List.length_take]
    omega
  · cases h

/-- `get_default` of `src/main.rs` lines 129-155: zero-value literal for a
target type text.  The `VArray` case strips the textual `VArray<` prefix and
the trailing `>` and recurses on what remains (which still carries the
`, $n` extent); a failing strip is the `unwrap` panic, modelled as `none`.
The final arm consults the enum-name set: a registered enum name defaults
to `0`, anything else to a default-construction call. -/
def get_default (enums : List Str) (ty : Str) : Option Str :=
  if ty = "Bool".data then some ("false".data)
  else if ty = "Unit".data then some ("()".data)
  else if ("Int".data).isPrefixOf ty || ("UInt".data).isPrefixOf ty then some ("0".data)
  else if ("Float".data).isPrefixOf ty then some ("0.0".data)
  else if ("VArray".data).isPrefixOf ty then
    match h1 : stripPre ty ("VArray<".data) with
    | none => none
    | some s1 =>
      match h2 : stripSuf s1 (">".data) with
      | none => none
      | some ty2 =>
        match get_default enums ty2 with
        | none => none
        | some d => some (ty ++ "(repeat: ".data ++ d ++ ")".data)
  else if ("CPointer".data).isPrefixOf ty then some ("CPointer()".data)
  else if ("CString".data).isPrefixOf ty then some ("CString(CPointer<UInt8>())".data)
  else if ("CFunc".data).isPrefixOf ty then some (ty ++ "(CPointer<Int8>())".data)
  else if enums.contains ty then some ("0".data)
  else some (ty ++ "()".data)
termination_by ty.length
decreasing_by
  have ha := stripPre_some_len h1
  have hb := stripSuf_some_len h2
  have hc : ("VArray<".data : Str).length = 7 := rfl
  omega

example : get_default [] ("Int32".data) = some ("0".data) := by
  simp [get_default]
example : get_default [] ("Bool".data) = some ("false".data) := by
  simp [get_default]
example : get_default [] ("VArray<Int32, $4>".data) =
    some ("VArray<Int32, $4>(repeat: 0)".data) := by
  simp [get_default, stripPre, stripSuf]
example : get_default [] ("VArray<Bool, $2>".data) =
    some ("VArray<Bool, $2>(repeat: Bool, $2())".data) := by
  simp [get_default, stripPre, stripSuf]
example : get_default [] ("VArray<VArray<Int32, $2>, $3>".data) = none := by
  simp [get_default, stripPre, stripSuf]
example : get_default [("Color".data)] ("Color".data) = some ("0".data) := by
  simp [get_default]
example : get_default [] ("Color".data) = some ("Color()".data) := by
  simp [get_default]

example : translate_type (.pointer .charS) = .ok ("CString".data) := by
  simp [translate_type]
example : translate_type (.pointer .sChar) = .ok ("CPointer<Int8>".data) := by
  simp [translate_type]
example : translate_type (.constantArray .intK 4) = .ok ("VArray<Int32, $4>".data) := by
  simp [translate_type, natChars, natCharsGo, digitChar]
example : translate_type (.functionPrototype [.intK, .bool] .void) =
    .ok ("CFunc<(Int32, Bool) -> Unit>".data) := by
  simp [translate_type, translate_proto, translate_args, joinComma]

/-! ## Declarations, registry, emitters -/

/-- An enum constant child (`EnumConstantDecl`): clang-provided name,
resolved signed value, optional doc comment. -/
structure EnumConstant where
  name : Option Str
  value : Int
  comment : Option Str

/-- A top-level `EnumDecl` entity. -/
structure EnumDecl where
  name : Option Str
  comment : Option Str
  constants : List EnumConstant

/-- A `FieldDecl` child of a struct: optional name, its C type, the
clang display text of that type (`get_display_name`, used only in
bit-field comments), an optional bit-field width, optional comment. -/
structure FieldDecl where
  name : Option Str
  ty : CType
  tyDisplay : Str
  bitWidth : Option Nat
  comment : Option Str

/-- A top-level `StructDecl` entity with its field children. -/
structure StructDecl where
  name : Option Str
  comment : Option Str
  fields : List FieldDecl

/-- A function parameter (`get_arguments` element). -/
structure ParamDecl where
  name : Option Str
  ty : CType

/-- A top-level `FunctionDecl` entity. -/
structure FunctionDecl where
  name : Option Str
  comment : Option Str
  params : List ParamDecl
  retTy : CType

/-- A top-level `TypedefDecl` entity; `underlying` is
`get_typedef_underlying_type`. -/
structure TypedefDecl where
  name : Option Str
  underlying : CType
  comment : Option Str

/-- The source's `typdef` record buffered in the global `TYPEDEFS` vec
(name, already-translated underlying text, comment). -/
structure typdef where
  name : Str
  typ : Str
  comment : Option Str

/-- The process-global mutable state of the program: the two
lazy-static name sets `STRUCT_NAMES` and `ENUM_NAMES` and the
`static mut TYPEDEFS` buffer.  Sets are modelled as duplicate-free
insertion lists. -/
structure Registry where
  structNames : List Str
  enumNames : List Str
  typedefs : List typdef

/-- The registry of a fresh process. -/
def emptyRegistry : Registry := ⟨[], [], []⟩

/-- `HashSet::insert`: a no-op on the carrier when the element is
already present. -/
def insertSet (x : Str) (s : List Str) : List Str :=
  if s.contains x then s else s ++ [x]

/-- A top-level entity kind as dispatched by the orchestrator's match. -/
inductive TopLevel where
  | enumD (e : EnumDecl)
  | structD (s : StructDecl)
  | funcD (f : FunctionDecl)
  | typedefD (t : TypedefDecl)
  | otherD

/-- A top-level entity plus its `is_in_system_header` flag. -/
structure TopEntity where
  inSystemHeader : Bool
  decl : TopLevel

/-- Chunks written for an optional comment at column 0
(`writeln!(output, "{}", comment)`). -/
def commentChunks (c : Option Str) : List Str :=
  match c with
  | none => []
  | some s => [s ++ "\n".data]

/-- Chunks written for an optional field comment (indented four spaces). -/
def fieldCommentChunks (c : Option Str) : List Str :=
  match c with
  | none => []
  | some s => ["    ".data ++ s ++ "\n".data]

/-- `process_enum` (lines 79-101): comment, `type N = Int32` alias line,
registration of the enum name in `ENUM_NAMES` (before the constants are
walked), then one `const` line per `EnumConstantDecl` child.  Returns
the updated registry, the chunks written, and the error if any. -/
def process_enum (e : EnumDecl) (reg : Registry) : Registry × List Str × Option RunError :=
  let c := commentChunks e.comment
  match e.name with
  | none => (reg, c, some unwrapPanic)
  | some tname =>
    let head := c ++ ["type ".data ++ tname ++ " = Int32\n\n".data]
    let reg1 := { reg with enumNames := insertSet tname reg.enumNames }
    let (body, err) := enumConstsLoop tname e.constants
    (reg1, head ++ body, err)
where
  enumConstsLoop (tname : Str) : List EnumConstant → List Str × Option RunError
  | [] => ([], none)
  | k :: rest =>
    let c := commentChunks k.comment
    match k.name with
    | none => (c, some unwrapPanic)
    | some kn =>
      let line := "const ".data ++ kn ++ ": ".data ++ tname ++ " = ".data
        ++ intChars k.value ++ "\n\n".data
      let (more, err) := enumConstsLoop tname rest
      (c ++ line :: more, err)

/-- The misaligned-bit-field error message of line 111. -/
def misalignedMsg : Str := "位域总位数不是8的倍数".data

/-- Sum of the widths of a pending bit-field run. -/
def totalBits (bfs : List (FieldDecl × Nat)) : Nat := (bfs.map (fun fw => fw.2)).sum

/-- The informational comment line for one bit-field sub-field: name
(or `unnamed`), declared C type text, width. -/
def bfComment (fw : FieldDecl × Nat) : Str :=
  "    // ".data ++ (fw.1.name.getD ("unnamed".data)) ++ " ".data ++ fw.1.tyDisplay
    ++ " : ".data ++ natChars fw.2 ++ "\n".data

/-- The single packed byte-array field line emitted for a bit-field run. -/
def packedLine (bytes : Nat) : Str :=
  "    var bitfields: VArray<UInt8, $".data ++ natChars bytes
    ++ "> = VArray<UInt8, $".data ++ natChars bytes ++ ">(repeat: 0)\n".data

/-- `process_bitfields` (lines 103-127): fails (before writing anything)
when the summed width is not byte-divisible; otherwise writes the group
comment, one comment per sub-field in order, and exactly one packed
`VArray<UInt8, $bytes>` field with an all-zero repeat default. -/
def process_bitfields (bfs : List (FieldDecl × Nat)) : Except RunError (List Str) :=
  if totalBits bfs % 8 ≠ 0 then .error (.ioErr misalignedMsg)
  else .ok ("    // 位域\n".data :: bfs.map bfComment ++ [packedLine (totalBits bfs / 8)])

/-- The field walk of `process_struct` (lines 176-201): bit-fields are
accumulated; a non-bit-field first flushes any pending run, then is
emitted as `var name: type = default`.  Returns the chunks written, the
still-pending bit-field run, and the error if any.  Panics of
`get_name().unwrap()`, `translate_type` and `get_default` surface at
the exact point the source raises them. -/
def fieldsLoop (enums : List Str) :
    List FieldDecl → List (FieldDecl × Nat) → List Str × List (FieldDecl × Nat) × Option RunError
  | [], bfs => ([], bfs, none)
  | f :: rest, bfs =>
    match f.bitWidth with
    | some w => fieldsLoop enums rest (bfs ++ [(f, w)])
    | none =>
      match (if bfs.isEmpty then Except.ok [] else process_bitfields bfs) with
      | .error e => ([], [], some e)
      | .ok flout =>
        match f.name with
        | none => (flout, [], some unwrapPanic)
        | some fname =>
          match translate_type f.ty with
          | .error e => (flout, [], some e)
          | .ok fty =>
            let cs := fieldCommentChunks f.comment
            match get_default enums fty with
            | none => (flout ++ cs, [], some unwrapPanic)
            | some d =>
              let line := "    var ".data ++ fname ++ ": ".data ++ fty ++ " = ".data
                ++ d ++ "\n".data
              let (more, bfs2, err2) := fieldsLoop enums rest []
              (flout ++ cs ++ line :: more, bfs2, err2)

/-- `process_struct` (lines 157-216): name unwrap, comment, insertion of
the name into `STRUCT_NAMES` (the insert result is never consulted),
`@C` attribute and header, the field walk, a flush of a trailing
bit-field run, closing brace, and a second (no-op) insertion. -/
def process_struct (s : StructDecl) (reg : Registry) : Registry × List Str × Option RunError :=
  match s.name with
  | none => (reg, [], some unwrapPanic)
  | some name =>
    let c := commentChunks s.comment
    let reg1 := { reg with structNames := insertSet name reg.structNames }
    let pre := c ++ ["@C\n".data, "struct ".data ++ name ++ " \x7b\n".data]
    match fieldsLoop reg1.enumNames s.fields [] with
    | (body, leftover, some e) => (reg1, pre ++ body, some e)
    | (body, leftover, none) =>
      match (if leftover.isEmpty then Except.ok [] else process_bitfields leftover) with
      | .error e => (reg1, pre ++ body, some e)
      | .ok tail =>
        let reg2 := { reg1 with structNames := insertSet name reg1.structNames }
        (reg2, pre ++ body ++ tail ++ ["\x7d\n".data, "\n".data], none)

/-- Parameter naming of `process_function` (lines 230-234): source name
or a positional `argN`, with a `_` suffix when it collides with `Unit`
or `type`. -/
def argName (p : ParamDecl) (i : Nat) : Str :=
  let n := p.name.getD ("arg".data ++ natChars i)
  if n = "Unit".data ∨ n = "type".data then n ++ "_".data else n

/-- The argument rendering loop of `process_function`: one
`name: type` chunk per parameter plus `, ` separator chunks, stopping
at a translation panic before writing the failing parameter. -/
def funcArgsLoop : List ParamDecl → Nat → Nat → List Str × Option RunError
  | [], _, _ => ([], none)
  | p :: rest, i, total =>
    let an := argName p i
    match translate_type p.ty with
    | .error e => ([], some e)
    | .ok aty =>
      let chunk := an ++ ": ".data ++ aty
      let sep : List Str := if i < total - 1 then [", ".data] else []
      let (more, err) := funcArgsLoop rest (i + 1) total
      (chunk :: sep ++ more, err)

/-- `process_function` (lines 218-246): name and return type resolved
first (panics propagate before anything is written), then comment,
opening `foreign func name(`, the argument list, and the closing
`): ret` line. -/
def process_function (f : FunctionDecl) : List Str × Option RunError :=
  match f.name with
  | none => ([], some unwrapPanic)
  | some name =>
    match translate_type f.retTy with
    | .error e => ([], some e)
    | .ok ret =>
      let c := commentChunks f.comment
      let opening := "foreign func ".data ++ name ++ "(".data
      match funcArgsLoop f.params 0 f.params.length with
      | (argChunks, some e) => (c ++ opening :: argChunks, some e)
      | (argChunks, none) =>
        (c ++ opening :: argChunks ++ ["): ".data ++ ret ++ "\n".data, "\n".data], none)

/-- `process_typedef` (lines 256-274): writes nothing; buffers the
alias in `TYPEDEFS` unless the alias name equals the translated
underlying text (identity aliases are dropped at buffering time). -/
def process_typedef (td : TypedefDecl) (reg : Registry) : Registry × Option RunError :=
  match td.name with
  | none => (reg, some unwrapPanic)
  | some name =>
    match translate_type td.underlying with
    | .error e => (reg, some e)
    | .ok s =>
      if name = s then (reg, none)
      else ({ reg with typedefs := reg.typedefs ++ [⟨name, s, td.comment⟩] }, none)

/-- The chunks emitted for one flushed typedef alias. -/
def renderTypedef (t : typdef) : List Str :=
  commentChunks t.comment ++ ["type ".data ++ t.name ++ " = ".data ++ t.typ ++ "\n".data]

/-- The loop of `generate_typedefs` (lines 276-290): buffered aliases in
original order, skipping any whose underlying text is not a registered
struct name. -/
def typedefsLoop (names : List Str) : List typdef → List Str
  | [] => []
  | t :: rest =>
    if names.contains t.typ then renderTypedef t ++ typedefsLoop names rest
    else typedefsLoop names rest

/-- `generate_typedefs`: the final alias-resolution pass over the
buffered `TYPEDEFS`, gated on `STRUCT_NAMES`. -/
def generate_typedefs (reg : Registry) : List Str :=
  typedefsLoop reg.structNames reg.typedefs

/-! ## Orchestrator -/

/-- The generated-file warning header written right after
`File::create` (lines 305-313). -/
def headerChunks : List Str :=
  ["// This file is automatically generated. DO NOT EDIT.\n".data,
   "\n".data,
   "package clang_cj\n".data]

/-- First traversal (lines 315-326): enums, functions and typedefs;
system-header entities and all other kinds are skipped.  An error stops
the walk, keeping the chunks already written. -/
def pass1 : List TopEntity → Registry → Registry × List Str × Option RunError
  | [], reg => (reg, [], none)
  | e :: rest, reg =>
    if e.inSystemHeader then pass1 rest reg
    else
      match e.decl with
      | .enumD d =>
        match process_enum d reg with
        | (reg1, out1, some er) => (reg1, out1, some er)
        | (reg1, out1, none) =>
          match pass1 rest reg1 with
          | (reg2, out2, err2) => (reg2, out1 ++ out2, err2)
      | .funcD d =>
        match process_function d with
        | (out1, some er) => (reg, out1, some er)
        | (out1, none) =>
          match pass1 rest reg with
          | (reg2, out2, err2) => (reg2, out1 ++ out2, err2)
      | .typedefD d =>
        match process_typedef d reg with
        | (reg1, some er) => (reg1, [], some er)
        | (reg1, none) => pass1 rest reg1
      | _ => pass1 rest reg

/-- Second traversal (lines 328-337): structs only. -/
def pass2 : List TopEntity → Registry → Registry × List Str × Option RunError
  | [], reg => (reg, [], none)
  | e :: rest, reg =>
    if e.inSystemHeader then pass2 rest reg
    else
      match e.decl with
      | .structD d =>
        match process_struct d reg with
        | (reg1, out1, some er) => (reg1, out1, some er)
        | (reg1, out1, none) =>
          match pass2 rest reg1 with
          | (reg2, out2, err2) => (reg2, out1 ++ out2, err2)
      | _ => pass2 rest reg

/-- Result of one `generate_bindings` call: the registry (the process
globals) as left behind, every chunk written to the output file (the
file content is their concatenation — `File::create` has already
created the file when the first chunk is written), and the error if
the run failed. -/
structure GenResult where
  reg : Registry
  out : List Str
  err : Option RunError

/-- `generate_bindings` (lines 292-342) from `File::create` on: header,
pass 1 (enums, functions, typedef buffering), pass 2 (structs), and the
typedef flush.  The registry parameter is the state of the process
globals at call time: nothing ever clears them. -/
def generate_bindings (tu : List TopEntity) (reg : Registry) : GenResult :=
  match pass1 tu reg with
  | (reg1, out1, some e) => ⟨reg1, headerChunks ++ out1, some e⟩
  | (reg1, out1, none) =>
    match pass2 tu reg1 with
    | (reg2, out2, some e) => ⟨reg2, headerChunks ++ out1 ++ out2, some e⟩
    | (reg2, out2, none) =>
      ⟨reg2, headerChunks ++ out1 ++ out2 ++ generate_typedefs reg2, none⟩

/-- Observable end state of one invocation from `main`'s point of view
(lines 351-357): clean success (exit 0), the `Error generating
bindings` diagnostic with exit code 1 for an `io::Error`, or a process
abort (panic, exit code 101) for an `unwrap`/`unreachable!`.  In every
case the file created at run start holds the chunks written so far. -/
inductive Outcome where
  | success (fileContent : List Str)
  | errorExit (diag : Str) (fileContent : List Str)
  | panicAbort (fileContent : List Str)

/-- Whether the outcome is the controlled diagnostic-plus-exit-1 path. -/
def Outcome.isErrorExit : Outcome → Bool
  | .errorExit _ _ => true
  | _ => false

/-- Whether the outcome is an uncontrolled panic abort. -/
def Outcome.isPanicAbort : Outcome → Bool
  | .panicAbort _ => true
  | _ => false

/-- The content of the output file left on disk. -/
def Outcome.fileOut : Outcome → List Str
  | .success f => f
  | .errorExit _ f => f
  | .panicAbort f => f

/-- One invocation as driven by `main`: the final registry (process
globals) and the observable outcome. -/
def run_main (tu : List TopEntity) (reg : Registry) : Registry × Outcome :=
  let r := generate_bindings tu reg
  match r.err with
  | none => (r.reg, .success r.out)
  | some (.ioErr m) =>
    (r.reg, .errorExit ("Error generating bindings: ".data ++ m) r.out)
  | some (.panicMsg _) => (r.reg, .panicAbort r.out)

example :
    (generate_bindings
      [⟨false, .structD ⟨some ("P".data), none,
        [⟨some ("x".data), .intK, "int".data, none, none⟩,
         ⟨some ("y".data), .intK, "int".data, none, none⟩]⟩⟩]
      emptyRegistry).out =
    headerChunks ++
      ["@C\n".data, "struct P \x7b\n".data,
       "    var x: Int32 = 0\n".data, "    var y: Int32 = 0\n".data,
       "\x7d\n".data, "\n".data] := by
  simp [generate_bindings, pass1, pass2, process_struct, fieldsLoop, translate_type,
    get_default, fieldCommentChunks, commentChunks, insertSet, emptyRegistry,
    generate_typedefs, typedefsLoop]

/-! ## Claims -/

theorem insertSet_of_contains {x : Str} {s : List Str} (h : s.contains x = true) :
    insertSet x s = s := by
  simp only [insertSet, h, if_true]

/-- The translation unit for the C1 counterexample: the same struct name
reachable twice (as with duplicate includes). -/
def cexC1tu : List TopEntity :=
  [⟨false, .structD ⟨some ("A".data), none, []⟩⟩,
   ⟨false, .structD ⟨some ("A".data), none, []⟩⟩]

/-- Claim C1 counterexample: processing a header in which struct `A` is
reachable twice emits the `struct A` declaration TWICE — the emitter never
skips an already-registered name, so the output does not contain the
declaration exactly once. -/
theorem struct_dup_emitted_twice :
    (generate_bindings cexC1tu emptyRegistry).out.count ("struct A \x7b\n".data) = 2 := by
  decide

/-- Claim C1 (amended): the struct emitter inserts the name into the
record-name set before emitting (a no-op when the name is already present),
but never consults whether it was already seen: for a struct whose name is
already registered, the set is left unchanged and the struct header is
still emitted — emission is never skipped. -/
theorem process_struct_reregister_no_skip (s : StructDecl) (n : Str) (reg : Registry)
    (h1 : s.name = some n) (h2 : reg.structNames.contains n = true) :
    (process_struct s reg).1.structNames = reg.structNames ∧
    ("struct ".data ++ n ++ " \x7b\n".data) ∈ (process_struct s reg).2.1 := by
  have hins := insertSet_of_contains h2
  unfold process_struct
  rw [h1]
  simp only [hins]
  split
  · exact ⟨by simp [hins], by simp⟩
  · split
    · exact ⟨by simp [hins], by simp⟩
    · exact ⟨by simp [hins], by simp⟩

/-- The struct and pre-populated registry for the C1 witness. -/
def wC1struct : StructDecl := ⟨some ("A".data), none, []⟩

/-- A registry in which the name `A` is already registered. -/
def wC1reg : Registry := ⟨[("A".data)], [], []⟩

/-- Witness for C1 (amended) at a concrete already-registered struct. -/
theorem process_struct_reregister_no_skip_witness :
    (process_struct wC1struct wC1reg).1.structNames = wC1reg.structNames ∧
    ("struct ".data ++ ("A".data) ++ " \x7b\n".data) ∈ (process_struct wC1struct wC1reg).2.1 :=
  process_struct_reregister_no_skip wC1struct ("A".data) wC1reg rfl (by decide)

/-- The translation unit for the C2 counterexample: one struct with a
bit-field run of widths 3, 3, 3 (sum 9, not byte-divisible). -/
def cexC2tu : List TopEntity :=
  [⟨false, .structD ⟨some ("S".data), none,
    [⟨some ("a".data), .intK, "int".data, some 3, none⟩,
     ⟨some ("b".data), .intK, "int".data, some 3, none⟩,
     ⟨some ("c".data), .intK, "int".data, some 3, none⟩]⟩⟩]

/-- Claim C2 counterexample: the run fails fatally (misaligned bit-field
run, diagnostic and exit code 1), yet the output file exists and is
nonempty — it already holds the generated header and the opening of the
struct, a truncated artifact on disk. -/
theorem failed_run_leaves_artifact :
    (run_main cexC2tu emptyRegistry).2.isErrorExit = true ∧
    (run_main cexC2tu emptyRegistry).2.fileOut ≠ [] := by
  decide

/-- Claim C2 (amended): output is written incrementally to the file created
at run start, never buffered: every run's chunk sequence (the file content)
begins with the generated header, so a failing run leaves a partial
artifact on disk rather than none. -/
theorem generate_bindings_header_always_written (tu : List TopEntity) (reg : Registry) :
    ∃ rest, (generate_bindings tu reg).out = headerChunks ++ rest := by
  unfold generate_bindings
  split
  · exact ⟨_, rfl⟩
  · split
    · exact ⟨_, rfl⟩
    · exact ⟨_, rfl⟩

/-- The translation unit for the C3 counterexample: a typedef `B` of
`struct A`, plus `struct A` itself. -/
def cexC3tu : List TopEntity :=
  [⟨false, .typedefD ⟨some ("B".data), .record (some ("A".data)), none⟩⟩,
   ⟨false, .structD ⟨some ("A".data), none, []⟩⟩]

/-- Claim C3 counterexample: after a first generation run that buffered
typedef `B = A` and registered `A`, a second run over an EMPTY translation
unit still emits `type B = A` — the registry persists in process globals,
and first-run state is observable in the second run's output. -/
theorem registry_persists_across_runs :
    ("type B = A\n".data) ∈
      (generate_bindings [] (generate_bindings cexC3tu emptyRegistry).reg).out := by
  simp [generate_bindings, pass1, pass2, process_typedef, process_struct, fieldsLoop,
    translate_type, insertSet, emptyRegistry, generate_typedefs, typedefsLoop,
    renderTypedef, commentChunks, headerChunks]

/-- Claim C3 (amended): the registry (lazy-static name sets and the
`static mut` typedef buffer) is process-global and never cleared between
runs: a second run starts from whatever registry the first run left, and
re-flushes its buffered typedefs — over an empty translation unit the
second run's output is exactly the header followed by the stale typedef
flush of the inherited registry. -/
theorem second_run_emits_stale_typedefs (reg : Registry) :
    (generate_bindings [] reg).out = headerChunks ++ generate_typedefs reg := rfl

/-- Claim C4: a bit-field run packs successfully exactly when the summed
width is byte-divisible; on success it emits the group marker, one
informational comment per sub-field (name, declared C type text, width) in
order, followed by exactly one opaque `VArray<UInt8, $(total/8)>` field
with an all-zero repeat default; otherwise it fails with the
misaligned-bit-field error before writing anything. -/
theorem process_bitfields_packing (bfs : List (FieldDecl × Nat)) :
    (totalBits bfs % 8 = 0 →
      process_bitfields bfs =
        .ok ("    // 位域\n".data :: bfs.map bfComment ++ [packedLine (totalBits bfs / 8)])) ∧
    (totalBits bfs % 8 ≠ 0 →
      process_bitfields bfs = .error (.ioErr misalignedMsg)) := by
  constructor <;> intro h <;> simp [process_bitfields, h]

/-- A bit-field run of widths 3 and 5 (sum 8) for the C4 witness. -/
def wC4bfs : List (FieldDecl × Nat) :=
  [(⟨some ("a".data), .intK, "int".data, some 3, none⟩, 3),
   (⟨some ("b".data), .intK, "int".data, some 5, none⟩, 5)]

/-- Witness for C4 at a concrete byte-aligned run. -/
theorem process_bitfields_packing_witness :
    totalBits wC4bfs % 8 = 0 ∧
    process_bitfields wC4bfs =
      .ok ("    // 位域\n".data :: wC4bfs.map bfComment ++ [packedLine (totalBits wC4bfs / 8)]) :=
  ⟨by decide, (process_bitfields_packing wC4bfs).1 (by decide)⟩

/-- Claim C5 counterexample: a pointer to `signed char` (clang kind
`SChar`, a distinct C type from plain `char`, whose signed flavour is kind
`CharS`) maps to the generic pointer `CPointer<Int8>`, not to the opaque
C-string type. -/
theorem pointer_schar_not_cstring :
    translate_type (.pointer .sChar) = .ok ("CPointer<Int8>".data) ∧
    ("CPointer<Int8>".data : Str) ≠ ("CString".data) := by
  refine ⟨by simp [translate_type], by decide⟩

/-- Claim C5 (amended): only a pointee of kind `CharS` (plain `char` on
signed-char targets) maps to the opaque `CString` type; an explicit
`signed char` (`SChar`) pointee falls through to the generic rule.  A
function-prototype pointee maps to the bare function-signature type,
never pointer-wrapped; every other pointee maps to `CPointer<...>`
around its own translation (propagating its panics). -/
theorem translate_pointer_rules :
    translate_type (.pointer .charS) = .ok ("CString".data) ∧
    (∀ args ret, translate_type (.pointer (.functionPrototype args ret)) =
      translate_type (.functionPrototype args ret)) ∧
    (∀ p : CType, p ≠ .charS → (∀ args ret, p ≠ .functionPrototype args ret) →
      translate_type (.pointer p) =
        (translate_type p).map (fun s => "CPointer<".data ++ s ++ ">".data)) := by
  refine ⟨by simp [translate_type], fun args ret => by simp [translate_type], ?_⟩
  intro p h1 h2
  rw [translate_type.eq_def]
  cases p with
  | charS => exact absurd rfl h1
  | functionPrototype args ret => exact absurd rfl (h2 args ret)
  | _ => cases htr : translate_type _ <;> simp [htr, Except.map]

/-- Witness for C5 (amended): the generic-pointee rule applied to a
pointer to `unsigned int`. -/
theorem translate_pointer_rules_witness :
    translate_type (.pointer .uInt) =
      (translate_type .uInt).map (fun s => "CPointer<".data ++ s ++ ">".data) :=
  translate_pointer_rules.2.2 .uInt (by intro h; cases h) (by intro args ret h; cases h)

theorem typedefsLoop_eq_filter (names : List Str) :
    ∀ l : List typdef,
      typedefsLoop names l = (l.filter (fun t => names.contains t.typ)).flatMap renderTypedef := by
  intro l
  induction l with
  | nil => rfl
  | cons t rest ih =>
    by_cases h : t.typ ∈ names
    · simp [typedefsLoop, List.filter_cons, h, ih]
    · simp [typedefsLoop, List.filter_cons, h, ih]

/-- The translation unit for the C6 counterexample: a header declaring
`typedef int Foo;` together with `struct Int32 { }` — valid C, since the
struct tag namespace is separate from ordinary identifiers. -/
def cexC6tu : List TopEntity :=
  [⟨false, .typedefD ⟨some ("Foo".data), .intK, none⟩⟩,
   ⟨false, .structD ⟨some ("Int32".data), none, []⟩⟩]

/-- Claim C6 counterexample: the flush gate is string membership of the
RENDERED underlying text in the struct-name set, not the claim's
named-record condition.  A typedef whose underlying mapped type is the
primitive `Int32` is emitted as `type Foo = Int32` when a struct named
`Int32` is also declared — contradicting "typedefs to primitives are
silently omitted". -/
theorem typedef_to_primitive_emitted :
    translate_type .intK = .ok ("Int32".data) ∧
    ("type Foo = Int32\n".data) ∈ (generate_bindings cexC6tu emptyRegistry).out := by
  constructor
  · simp [translate_type]
  · simp [generate_bindings, pass1, pass2, process_typedef, process_struct, fieldsLoop,
      translate_type, insertSet, emptyRegistry, cexC6tu, generate_typedefs, typedefsLoop,
      renderTypedef, commentChunks, headerChunks]

/-- Claim C6 (amended): the final pass walks the buffered aliases in
original declaration order and emits exactly those whose translated
underlying TEXT is a member of the struct-name set (identity aliases were
already dropped when buffering, so an emitted alias name differs from its
target); a buffered alias whose rendered target is not in that set
contributes nothing, silently.  Omission of typedefs to primitives, enums,
or unregistered names therefore holds only as long as their rendered text
collides with no registered struct name — a struct named like a primitive
(`struct Int32`) makes a typedef-to-primitive emit. -/
theorem typedef_flush_rule :
    (∀ reg, generate_typedefs reg =
      (reg.typedefs.filter (fun t => reg.structNames.contains t.typ)).flatMap renderTypedef) ∧
    (∀ n u c reg s, translate_type u = .ok s →
      (process_typedef ⟨some n, u, c⟩ reg).1.typedefs =
        reg.typedefs ++ (if n = s then [] else [⟨n, s, c⟩])) ∧
    (∀ names pre t post, names.contains t.typ = false →
      typedefsLoop names (pre ++ t :: post) = typedefsLoop names (pre ++ post)) := by
  refine ⟨fun reg => typedefsLoop_eq_filter reg.structNames reg.typedefs, ?_, ?_⟩
  · intro n u c reg s h
    by_cases hid : n = s
    · simp [process_typedef, h, hid]
    · simp [process_typedef, h, hid]
  · intro names pre t post h
    have hm : t.typ ∉ names := by simpa using h
    induction pre with
    | nil => simp [typedefsLoop, hm]
    | cons p pre ih =>
      by_cases hp : p.typ ∈ names
      · simp [typedefsLoop, hp, ih]
      · simp [typedefsLoop, hp, ih]

/-- A buffered typedef whose target `Int32` is no struct name, for the C6
witness. -/
def wC6typdef : typdef := ⟨"I".data, "Int32".data, none⟩

/-- Witness for C6 at concrete inputs: buffering a typedef of
`struct A` named `B`, and the silent skip of an alias to `Int32`. -/
theorem typedef_flush_rule_witness :
    (process_typedef ⟨some ("B".data), .record (some ("A".data)), none⟩ emptyRegistry).1.typedefs =
      emptyRegistry.typedefs ++
        (if ("B".data : Str) = ("A".data) then [] else [⟨"B".data, "A".data, none⟩]) ∧
    typedefsLoop [] ([] ++ wC6typdef :: []) = typedefsLoop [] ([] ++ []) :=
  ⟨typedef_flush_rule.2.1 ("B".data) (.record (some ("A".data))) none emptyRegistry ("A".data)
      (by simp [translate_type]),
   typedef_flush_rule.2.2 [] [] wC6typdef [] (by decide)⟩

/-- Claim C7: the `FixedArray` clause of the default-value synthesizer does
not wrap the element's default: for the mapping of `_Bool [2]` the strip of
`VArray<` and `>` leaves the string `Bool, $2`, whose default is the
default-construction call `Bool, $2()`, so the emitted repeat default is
`VArray<Bool, $2>(repeat: Bool, $2())` while the default literal of the
element `Bool` is `false`. -/
theorem array_default_not_element_default :
    get_default [] ("VArray<Bool, $2>".data) =
      some ("VArray<Bool, $2>(repeat: Bool, $2())".data) ∧
    get_default [] ("Bool".data) = some ("false".data) ∧
    translate_type (.constantArray .bool 2) = .ok ("VArray<Bool, $2>".data) := by
  refine ⟨by simp [get_default, stripPre, stripSuf], by simp [get_default],
    by simp [translate_type, natChars, natCharsGo, digitChar]⟩

/-- The translation unit for the C8 counterexample: a function returning a
C type of a kind the mapper does not cover. -/
def cexC8tu : List TopEntity :=
  [⟨false, .funcD ⟨some ("f".data), none, [], .other ("Int128".data)⟩⟩]

/-- Claim C8 counterexample: an unsupported C type kind aborts the run
through the `unreachable!` panic — a process abort, not the controlled
one-diagnostic-line-plus-exit-code-1 path the claim describes. -/
theorem unsupported_type_panics_run :
    (run_main cexC8tu emptyRegistry).2.isPanicAbort = true ∧
    (run_main cexC8tu emptyRegistry).2.isErrorExit = false := by
  constructor <;>
    simp [run_main, generate_bindings, pass1, pass2, process_function, translate_type,
      emptyRegistry, cexC8tu, Outcome.isPanicAbort, Outcome.isErrorExit, generate_typedefs,
      typedefsLoop]

/-- Claim C8 (amended): an unsupported C type kind fails translation with
the `Unsupported type` panic, which aborts the process (panic unwinding,
exit code 101) rather than flowing to the diagnostic path; only
`io::Error` failures (e.g. misaligned bit-fields) produce the single
`Error generating bindings` diagnostic with exit code 1. -/
theorem unsupported_type_is_panic :
    (∀ tag, translate_type (.other tag) =
      .error (.panicMsg ("Unsupported type: ".data ++ tag))) ∧
    (∀ tu reg m, (generate_bindings tu reg).err = some (.panicMsg m) →
      (run_main tu reg).2 = .panicAbort (generate_bindings tu reg).out) ∧
    (∀ tu reg m, (generate_bindings tu reg).err = some (.ioErr m) →
      (run_main tu reg).2 =
        .errorExit ("Error generating bindings: ".data ++ m) (generate_bindings tu reg).out) := by
  refine ⟨fun tag => by simp [translate_type], ?_, ?_⟩ <;>
    · intro tu reg m h
      simp [run_main, h]

/-- Witness for C8 (amended) at the concrete unsupported-return-type run. -/
theorem unsupported_type_is_panic_witness :
    (run_main cexC8tu emptyRegistry).2 =
      .panicAbort (generate_bindings cexC8tu emptyRegistry).out :=
  unsupported_type_is_panic.2.1 cexC8tu emptyRegistry
    ("Unsupported type: ".data ++ "Int128".data)
    (by simp [generate_bindings, pass1, process_function, translate_type, emptyRegistry, cexC8tu])

theorem isPrefixOf_append_self : ∀ (p r : Str), p.isPrefixOf (p ++ r) = true := by
  intro p
  induction p with
  | nil => intro r; cases r <;> rfl
  | cons a as ih => intro r; simp [List.isPrefixOf, ih]

theorem isPrefixOf_cons_ne {a b : Char} (h : (a == b) = false) (l1 l2 : Str) :
    (a :: l1).isPrefixOf (b :: l2) = false := by
  simp [List.isPrefixOf, h]

theorem stripPre_append (p r : Str) : stripPre (p ++ r) p = some r := by
  simp [stripPre, isPrefixOf_append_self, List.drop_left]

theorem stripSuf_append (r p : Str) : stripSuf (r ++ p) p = some r := by
  have h1 : (r ++ p).reverse = p.reverse ++ r.reverse := by simp
  have h2 : (r ++ p).length - p.length = r.length := by simp
  simp [stripSuf, h1, isPrefixOf_append_self, h2, List.take_left]

theorem stripSuf_ends_ne (r : Str) (c d : Char) (h : d ≠ c) :
    stripSuf (r ++ [d]) [c] = none := by
  have h1 : (r ++ [d]).reverse = d :: r.reverse := by simp
  have h2 : (c == d) = false := beq_eq_false_iff_ne.mpr (fun hcd => h hcd.symm)
  simp [stripSuf, h1, List.isPrefixOf, h2]

theorem natChars_ends_digit (n : Nat) :
    ∃ l d, d < 10 ∧ natChars n = l ++ [digitChar d] := by
  unfold natChars
  simp only [natCharsGo]
  by_cases h : n < 10
  · exact ⟨[], n, h, by simp [h]⟩
  · exact ⟨natCharsGo n (n / 10), n % 10, Nat.mod_lt _ (by omega), by simp [h]⟩

theorem digitChar_ne_gt {d : Nat} (h : d < 10) : digitChar d ≠ '>' := by
  interval_cases d <;> decide

/-- The `VArray` arm of `get_default` on any string of the shape
`VArray<X`: the prefix strip succeeds and leaves `X`, whose trailing `>`
is then stripped; the recursion runs on that remainder (which still
carries the `, $n` extent text). -/
theorem get_default_varray (e : List Str) (X : Str) :
    get_default e ("VArray<".data ++ X) =
      match stripSuf X (">".data) with
      | none => none
      | some ty2 =>
        match get_default e ty2 with
        | none => none
        | some d => some (("VArray<".data ++ X) ++ "(repeat: ".data ++ d ++ ")".data) := by
  have g1 : ¬("VArray<".data ++ X = "Bool".data) := by
    simp [show ("VArray<".data ++ X) = 'V' :: ("Array<".data ++ X) from rfl,
      show "Bool".data = 'B' :: "ool".data from rfl]
  have g2 : ¬("VArray<".data ++ X = "Unit".data) := by
    simp [show ("VArray<".data ++ X) = 'V' :: ("Array<".data ++ X) from rfl,
      show "Unit".data = 'U' :: "nit".data from rfl]
  have e1 : ("Int".data).isPrefixOf ("VArray<".data ++ X) = false :=
    isPrefixOf_cons_ne (by decide) _ _
  have e2 : ("UInt".data).isPrefixOf ("VArray<".data ++ X) = false :=
    isPrefixOf_cons_ne (by decide) _ _
  have e3 : ("Float".data).isPrefixOf ("VArray<".data ++ X) = false :=
    isPrefixOf_cons_ne (by decide) _ _
  have g5 : ("VArray".data).isPrefixOf ("VArray<".data ++ X) = true := by
    show ("VArray".data).isPrefixOf ("VArray".data ++ ('<' :: X)) = true
    exact isPrefixOf_append_self _ _
  rw [get_default.eq_def]
  rw [if_neg g1, if_neg g2, if_neg (by simp [e1, e2]), if_neg (by simp [e3]), if_pos g5]
  split
  · next heq => rw [stripPre_append] at heq; simp at heq
  · next s1 heq =>
    rw [stripPre_append] at heq
    have hs1 : s1 = X := by injection heq with h; exact h.symm
    subst hs1
    split
    · next heq2 => simp [heq2]
    · next ty2 heq2 => simp [heq2]

example : get_default [] ("VArray<Unit, $3>".data) =
    some ("VArray<Unit, $3>(repeat: Unit, $3())".data) := by
  rw [show ("VArray<Unit, $3>".data : Str) = "VArray<".data ++ "Unit, $3>".data from rfl,
    get_default_varray]
  simp [get_default, stripSuf]

/-- The `ConstantArray` arm of `translate_type` as one equation. -/
theorem translate_constantArray (t : CType) (n : Nat) :
    translate_type (.constantArray t n) =
      (translate_type t).map
        (fun es => "VArray<".data ++ es ++ ", $".data ++ natChars n ++ ">".data) := by
  cases htr : translate_type t <;>
    · rw [translate_type.eq_def]
      simp only [htr]
      rfl

theorem get_default_varray_some (e : List Str) (X r : Str) (hr : stripSuf X (">".data) = some r) :
    get_default e ("VArray<".data ++ X) =
      (get_default e r).map
        (fun d => ("VArray<".data ++ X) ++ "(repeat: ".data ++ d ++ ")".data) := by
  rw [get_default_varray, hr]
  show (match get_default e r with
    | none => none
    | some d => some ("VArray<".data ++ X ++ "(repeat: ".data ++ d ++ ")".data)) =
    (get_default e r).map (fun d => "VArray<".data ++ X ++ "(repeat: ".data ++ d ++ ")".data)
  cases get_default e r <;> rfl

theorem get_default_varray_fail (e : List Str) (X : Str) (hn : stripSuf X (">".data) = none) :
    get_default e ("VArray<".data ++ X) = none := by
  rw [get_default_varray, hn]

/-- Claim C9: the default-value synthesizer is not total over mapper
outputs: for every fixed-array type whose element is itself a fixed array
(the mapping of any two-dimensional C constant array), computing the
default panics — stripping `VArray<` and the trailing `>` from the outer
text leaves `VArray<inner, $m>, $n`, whose recursive case ends in a
decimal digit, so its own suffix strip returns `None` and the `unwrap`
panics. -/
theorem nested_array_default_panics (e : List Str) (t : CType) (m n : Nat) (s : Str)
    (h : translate_type (.constantArray (.constantArray t m) n) = .ok s) :
    get_default e s = none := by
  rw [translate_constantArray, translate_constantArray] at h
  cases hT : translate_type t with
  | error e3 =>
    rw [hT] at h
    exact Except.noConfusion h
  | ok I =>
    rw [hT] at h
    injection h with h2
    subst h2
    show get_default e
      ("VArray<".data ++ ("VArray<".data ++ I ++ ", $".data ++ natChars m ++ ">".data) ++
        ", $".data ++ natChars n ++ ">".data) = none
    obtain ⟨l, d, hd10, hnd⟩ := natChars_ends_digit n
    have hre1 : "VArray<".data ++
          ("VArray<".data ++ I ++ ", $".data ++ natChars m ++ ">".data) ++
          ", $".data ++ natChars n ++ ">".data =
        "VArray<".data ++
          ((("VArray<".data ++ I ++ ", $".data ++ natChars m ++ ">".data) ++
            ", $".data ++ natChars n) ++ ">".data) := by
      simp [List.append_assoc]
    rw [hre1,
      get_default_varray_some e _ _
        (stripSuf_append
          (("VArray<".data ++ I ++ ", $".data ++ natChars m ++ ">".data) ++
            ", $".data ++ natChars n) (">".data))]
    have hre2 : ("VArray<".data ++ I ++ ", $".data ++ natChars m ++ ">".data) ++
          ", $".data ++ natChars n =
        "VArray<".data ++
          (I ++ ", $".data ++ natChars m ++ ">".data ++ ", $".data ++ natChars n) := by
      simp [List.append_assoc]
    have hre3 : I ++ ", $".data ++ natChars m ++ ">".data ++ ", $".data ++ natChars n =
        (I ++ ", $".data ++ natChars m ++ ">".data ++ ", $".data ++ l) ++ [digitChar d] := by
      rw [hnd]; simp [List.append_assoc]
    have hinner :
        get_default e (("VArray<".data ++ I ++ ", $".data ++ natChars m ++ ">".data) ++
          ", $".data ++ natChars n) = none := by
      rw [hre2]
      apply get_default_varray_fail
      rw [hre3]
      exact stripSuf_ends_ne _ '>' (digitChar d) (digitChar_ne_gt hd10)
    rw [hinner]
    rfl

/-- Witness for C9 at the mapping of `int [2][3]`. -/
theorem nested_array_default_panics_witness :
    translate_type (.constantArray (.constantArray .intK 2) 3) =
      .ok ("VArray<VArray<Int32, $2>, $3>".data) ∧
    get_default [] ("VArray<VArray<Int32, $2>, $3>".data) = none :=
  ⟨by simp [translate_type, natChars, natCharsGo, digitChar],
   nested_array_default_panics [] .intK 2 3 _
     (by simp [translate_type, natChars, natCharsGo, digitChar])⟩

/-- Claim C10: an anonymous bit-field member raises no missing-name
error — its informational comment renders the placeholder name `unnamed`
and packing proceeds normally — whereas an anonymous ordinary
(non-bit-field) struct field hits `get_name().unwrap()` and panics. -/
theorem anonymous_field_handling :
    (∀ (ty : CType) (disp : Str) (w : Nat) (cmt : Option Str),
      bfComment (⟨none, ty, disp, some w, cmt⟩, w) =
        "    // unnamed ".data ++ disp ++ " : ".data ++ natChars w ++ "\n".data) ∧
    (∀ bfs, totalBits bfs % 8 = 0 → ∃ ls, process_bitfields bfs = .ok ls) ∧
    (∀ (nm : Str) (t : CType) (disp : Str) (cmt : Option Str) (reg : Registry),
      (process_struct ⟨some nm, none, [⟨none, t, disp, none, cmt⟩]⟩ reg).2.2 =
        some unwrapPanic) := by
  refine ⟨fun ty disp w cmt => rfl, ?_, ?_⟩
  · intro bfs h
    exact ⟨"    // 位域\n".data :: bfs.map bfComment ++ [packedLine (totalBits bfs / 8)],
      by simp [process_bitfields, h]⟩
  · intro nm t disp cmt reg
    simp [process_struct, fieldsLoop]

/-- The single anonymous bit-field (width 8) for the C10 witness. -/
def wC10bfs : List (FieldDecl × Nat) := [(⟨none, .intK, "int".data, some 8, none⟩, 8)]

/-- Witness for C10 at concrete anonymous fields. -/
theorem anonymous_field_handling_witness :
    bfComment (⟨none, .intK, "int".data, some 8, none⟩, 8) =
      "    // unnamed ".data ++ "int".data ++ " : ".data ++ natChars 8 ++ "\n".data ∧
    (∃ ls, process_bitfields wC10bfs = .ok ls) ∧
    (process_struct ⟨some ("S".data), none, [⟨none, .intK, "int".data, none, none⟩]⟩
        emptyRegistry).2.2 = some unwrapPanic :=
  ⟨anonymous_field_handling.1 .intK ("int".data) 8 none,
   anonymous_field_handling.2.1 wC10bfs (by decide),
   anonymous_field_handling.2.2 ("S".data) .intK ("int".data) none emptyRegistry⟩
